import Mathlib

/-!
# Verification of the EVM transaction parser core (LedgerHQ app-peaq)

Shallow embedding of `src/app/src/evm/parser_impl_evm.c` and
`src/app/src/crypto.c`.  Byte buffers are `List Nat` (each element a byte
value), pointers into a buffer are natural-number indices, and fallible C
functions returning `parser_error_t` become `Except ParserError`.

The RLP reader (`rlp.c`), the numeric helpers (`be_bytes_to_u64`,
`saturating_add_u32`) and the ERC-20 recogniser (`evm_erc20.c`) are not
among the provided sources; they are modelled from the specification, as
marked on each definition.
-/

/-- The parser error codes used by the sources (`parser_common.h`). -/
inductive ParserError where
  | parser_unexpected_error
  | parser_unexpected_buffer_end
  | parser_invalid_length
  | parser_non_canonical
  | parser_unexpected_value
  | parser_unexpected_characters
  | parser_unsupported_tx
  | parser_invalid_chain_id
  | parser_invalid_rs_values
  | parser_display_page_out_of_range
  deriving DecidableEq, Repr

/-- The RLP item kinds used by the parser (`RLP_KIND_BYTE`, `RLP_KIND_STRING`,
`RLP_KIND_LIST`). -/
inductive RlpKind where
  | byte
  | string
  | list
  deriving DecidableEq, Repr

/-- An RLP item (`rlp_t`): kind, payload pointer (index into the source
buffer; the C `NULL` pointer is modelled as index 0 together with length 0),
and payload length. -/
structure rlp_t where
  kind : RlpKind
  ptr : Nat
  rlpLen : Nat
  deriving DecidableEq, Repr

/-- A parser context (`parser_context_t`): the C `buffer` pointer is
modelled as the index `base` into the single source byte list, together
with `bufferLen` and the cursor `offset`. -/
structure parser_context_t where
  base : Nat
  bufferLen : Nat
  offset : Nat
  deriving DecidableEq, Repr

/-- The payload view of `len` bytes starting at index `ptr` of `src`. -/
def view (src : List Nat) (ptr len : Nat) : List Nat :=
  (src.drop ptr).take len

/-- Big-endian value of a byte list. -/
def beVal (bytes : List Nat) : Nat :=
  bytes.foldl (fun acc b => acc * 256 + b) 0

/-- Modelled from the spec: the numeric helper `be_bytes_to_u64`
(`evm_utils.c`, not among the provided sources).  Interprets `len` bytes at
`ptr` as a big-endian unsigned 64-bit integer; a length above 8 bytes is
rejected with `unexpected_error`. -/
def be_bytes_to_u64 (src : List Nat) (ptr len : Nat) : Except ParserError Nat :=
  if len > 8 then .error .parser_unexpected_error
  else .ok (beVal (view src ptr len))

/-- Modelled from the spec: the RLP reader `rlp_read` (`rlp.c`, not among
the provided sources), following the spec table in §4.1.  Reads one item at
`ctx.offset`, advances the cursor past it, and returns a view.  First byte
`B < 0x80`: single byte; `0x80..0xB7`: short string of length `B - 0x80`;
`0xB8..0xBF`: long string, big-endian length in the next `B - 0xB7` bytes;
`0xC0..0xF7`: short list; `0xF8..0xFF`: long list.  `unexpected_end`
(modelled as `parser_unexpected_buffer_end`) if a header or payload would
overrun the buffer, `invalid_length` if a long-form length byte count
exceeds 8, `non_canonical` if a long-form length has a zero leading byte.
This worker returns the item together with the new cursor offset. -/
def rlp_read_at (src : List Nat) (base bufferLen offset : Nat) :
    Except ParserError (rlp_t × Nat) :=
  if offset ≥ bufferLen then .error .parser_unexpected_buffer_end
  else
    let B := src.getD (base + offset) 0
    if B < 0x80 then
      .ok (⟨.byte, base + offset, 1⟩, offset + 1)
    else if B ≤ 0xB7 then
      let len := B - 0x80
      if offset + 1 + len > bufferLen then .error .parser_unexpected_buffer_end
      else .ok (⟨.string, base + offset + 1, len⟩, offset + 1 + len)
    else if B ≤ 0xBF then
      let L := B - 0xB7
      if L > 8 then .error .parser_invalid_length
      else if offset + 1 + L > bufferLen then .error .parser_unexpected_buffer_end
      else if src.getD (base + offset + 1) 0 = 0 then .error .parser_non_canonical
      else
        let len := beVal (view src (base + offset + 1) L)
        if offset + 1 + L + len > bufferLen then .error .parser_unexpected_buffer_end
        else .ok (⟨.string, base + offset + 1 + L, len⟩, offset + 1 + L + len)
    else if B ≤ 0xF7 then
      let len := B - 0xC0
      if offset + 1 + len > bufferLen then .error .parser_unexpected_buffer_end
      else .ok (⟨.list, base + offset + 1, len⟩, offset + 1 + len)
    else
      let L := B - 0xF7
      if L > 8 then .error .parser_invalid_length
      else if offset + 1 + L > bufferLen then .error .parser_unexpected_buffer_end
      else if src.getD (base + offset + 1) 0 = 0 then .error .parser_non_canonical
      else
        let len := beVal (view src (base + offset + 1) L)
        if offset + 1 + L + len > bufferLen then .error .parser_unexpected_buffer_end
        else .ok (⟨.list, base + offset + 1 + L, len⟩, offset + 1 + L + len)

/-- Modelled from the spec: the cursor-advancing wrapper of the RLP reader
(`rlp_read(ctx, item)` in `rlp.c`): reads one item with `rlp_read_at` and
advances `ctx.offset` past it. -/
def rlp_read (src : List Nat) (ctx : parser_context_t) :
    Except ParserError (rlp_t × parser_context_t) :=
  match rlp_read_at src ctx.base ctx.bufferLen ctx.offset with
  | .error e => .error e
  | .ok (item, newOffset) => .ok (item, { ctx with offset := newOffset })

/-- The chain-ID allow-list (`supported_networks_evm`): PEAQ mainnet 3338,
testnet 9990, canary 2241. -/
def supported_networks_evm : List Nat := [3338, 9990, 2241]

/-- `readChainID` (parser_impl_evm.c lines 40-64): reads one RLP item, decodes
its payload (big-endian via `be_bytes_to_u64` when longer than one byte, the
byte itself for a single-byte-kind item, `unexpected_error` otherwise) and
checks membership in the allow-list. -/
def readChainID (src : List Nat) (ctx : parser_context_t) :
    Except ParserError (rlp_t × parser_context_t) :=
  match rlp_read src ctx with
  | .error e => .error e
  | .ok (chainId, ctx') =>
    let tmp : Except ParserError Nat :=
      if chainId.rlpLen > 1 then
        be_bytes_to_u64 src chainId.ptr chainId.rlpLen
      else if chainId.kind = RlpKind.byte then
        -- case where the prefix is the byte itself
        .ok (src.getD chainId.ptr 0)
      else .error .parser_unexpected_error
    match tmp with
    | .error e => .error e
    | .ok tmpChainId =>
      if supported_networks_evm.contains tmpChainId then .ok (chainId, ctx')
      else .error .parser_invalid_chain_id

/-- Transaction type tag (`eth_tx_type_e`): `eip2930 = 0x01`,
`eip1559 = 0x02`, `legacy = 0xC0`. -/
inductive eth_tx_type_e where
  | eip2930
  | eip1559
  | legacy
  deriving DecidableEq, Repr

/-- The parsed transaction record (`eth_tx_t`); the nested `tx` struct is
flattened.  `is_erc20_transfer` is the flag set by the ERC-20 recogniser. -/
structure eth_tx_t where
  tx_type : eth_tx_type_e
  chainId : rlp_t
  nonce : rlp_t
  gasPrice : rlp_t
  gasLimit : rlp_t
  «to» : rlp_t
  value : rlp_t
  data : rlp_t
  max_priority_fee_per_gas : rlp_t
  max_fee_per_gas : rlp_t
  access_list : rlp_t
  is_erc20_transfer : Bool
  deriving DecidableEq, Repr

/-- A zeroed RLP view (all-zero `rlp_t` after `MEMZERO`). -/
def zeroRlp : rlp_t := ⟨RlpKind.byte, 0, 0⟩

/-- The zeroed transaction record, as left by `MEMZERO(&eth_tx_obj, ...)`.
The `legacy` tag is irrelevant: every parse overwrites `tx_type`. -/
def zeroTx : eth_tx_t :=
  ⟨.legacy, zeroRlp, zeroRlp, zeroRlp, zeroRlp, zeroRlp, zeroRlp, zeroRlp,
   zeroRlp, zeroRlp, zeroRlp, false⟩

/-- `parse_legacy_tx` (parser_impl_evm.c lines 66-104): reads `nonce`,
`gasPrice`, `gasLimit`, `to`, `value`, `data`; if the nested context is
exhausted the transaction is pre-EIP-155 (`chainId` left zero-length, with a
`NULL` pointer modelled as index 0); otherwise reads the chain ID and the
trailing `r`/`s` items, which must both be empty or both the single byte 0
(the C test is `!(*sig_r.ptr | *sig_s.ptr)`). -/
def parse_legacy_tx (src : List Nat) (ctx : parser_context_t)
    (ty : eth_tx_type_e) : Except ParserError eth_tx_t :=
  match rlp_read src ctx with
  | .error e => .error e
  | .ok (nonce, ctx1) =>
  match rlp_read src ctx1 with
  | .error e => .error e
  | .ok (gasPrice, ctx2) =>
  match rlp_read src ctx2 with
  | .error e => .error e
  | .ok (gasLimit, ctx3) =>
  match rlp_read src ctx3 with
  | .error e => .error e
  | .ok («to», ctx4) =>
  match rlp_read src ctx4 with
  | .error e => .error e
  | .ok (value, ctx5) =>
  match rlp_read src ctx5 with
  | .error e => .error e
  | .ok (dataItem, ctx6) =>
  if ctx6.offset = ctx6.bufferLen then
    .ok { zeroTx with
          tx_type := ty
          chainId := ⟨RlpKind.byte, 0, 0⟩
          nonce := nonce
          gasPrice := gasPrice
          gasLimit := gasLimit
          «to» := «to»
          value := value
          data := dataItem }
  else
    match readChainID src ctx6 with
    | .error e => .error e
    | .ok (chainId, ctx7) =>
    match rlp_read src ctx7 with
    | .error e => .error e
    | .ok (sig_r, ctx8) =>
    match rlp_read src ctx8 with
    | .error e => .error e
    | .ok (sig_s, _ctx9) =>
    if (sig_r.rlpLen = 0 ∧ sig_s.rlpLen = 0) ∨
       (sig_r.rlpLen = 1 ∧ sig_s.rlpLen = 1 ∧
         (src.getD sig_r.ptr 0) ||| (src.getD sig_s.ptr 0) = 0) then
      .ok { zeroTx with
            tx_type := ty
            chainId := chainId
            nonce := nonce
            gasPrice := gasPrice
            gasLimit := gasLimit
            «to» := «to»
            value := value
            data := dataItem }
    else .error .parser_invalid_rs_values

/-- `parse_2930` (parser_impl_evm.c lines 106-125). -/
def parse_2930 (src : List Nat) (ctx : parser_context_t)
    (ty : eth_tx_type_e) : Except ParserError eth_tx_t :=
  match readChainID src ctx with
  | .error e => .error e
  | .ok (chainId, ctx1) =>
  match rlp_read src ctx1 with
  | .error e => .error e
  | .ok (nonce, ctx2) =>
  match rlp_read src ctx2 with
  | .error e => .error e
  | .ok (gasPrice, ctx3) =>
  match rlp_read src ctx3 with
  | .error e => .error e
  | .ok (gasLimit, ctx4) =>
  match rlp_read src ctx4 with
  | .error e => .error e
  | .ok («to», ctx5) =>
  match rlp_read src ctx5 with
  | .error e => .error e
  | .ok (value, ctx6) =>
  match rlp_read src ctx6 with
  | .error e => .error e
  | .ok (dataItem, ctx7) =>
  match rlp_read src ctx7 with
  | .error e => .error e
  | .ok (accessList, ctx8) =>
  if ctx8.offset < ctx8.bufferLen then .error .parser_unexpected_characters
  else
    .ok { zeroTx with
          tx_type := ty
          chainId := chainId
          nonce := nonce
          gasPrice := gasPrice
          gasLimit := gasLimit
          «to» := «to»
          value := value
          data := dataItem
          access_list := accessList }

/-- `parse_1559` (parser_impl_evm.c lines 127-148). -/
def parse_1559 (src : List Nat) (ctx : parser_context_t)
    (ty : eth_tx_type_e) : Except ParserError eth_tx_t :=
  match readChainID src ctx with
  | .error e => .error e
  | .ok (chainId, ctx1) =>
  match rlp_read src ctx1 with
  | .error e => .error e
  | .ok (nonce, ctx2) =>
  match rlp_read src ctx2 with
  | .error e => .error e
  | .ok (maxPriority, ctx3) =>
  match rlp_read src ctx3 with
  | .error e => .error e
  | .ok (maxFee, ctx4) =>
  match rlp_read src ctx4 with
  | .error e => .error e
  | .ok (gasLimit, ctx5) =>
  match rlp_read src ctx5 with
  | .error e => .error e
  | .ok («to», ctx6) =>
  match rlp_read src ctx6 with
  | .error e => .error e
  | .ok (value, ctx7) =>
  match rlp_read src ctx7 with
  | .error e => .error e
  | .ok (dataItem, ctx8) =>
  match rlp_read src ctx8 with
  | .error e => .error e
  | .ok (accessList, ctx9) =>
  if ctx9.offset < ctx9.bufferLen then .error .parser_unexpected_characters
  else
    .ok { zeroTx with
          tx_type := ty
          chainId := chainId
          nonce := nonce
          gasLimit := gasLimit
          «to» := «to»
          value := value
          data := dataItem
          max_priority_fee_per_gas := maxPriority
          max_fee_per_gas := maxFee
          access_list := accessList }

/-- `readTxnType` (parser_impl_evm.c lines 150-173): first byte `0x01` is
EIP-2930 (tag consumed), `0x02` is EIP-1559 (tag consumed), anything at or
above `0xC0` is legacy (nothing consumed), everything else is
`unsupported_tx`. -/
def readTxnType (src : List Nat) (ctx : parser_context_t) :
    Except ParserError (eth_tx_type_e × parser_context_t) :=
  if ctx.bufferLen = 0 ∨ ctx.offset ≠ 0 then .error .parser_unexpected_error
  else
    let marker := src.getD (ctx.base + ctx.offset) 0
    if marker = 0x01 ∨ marker = 0x02 then
      .ok ((if marker = 0x01 then .eip2930 else .eip1559),
        { ctx with offset := ctx.offset + 1 })
    else if marker < 0xC0 then .error .parser_unsupported_tx
    else .ok (.legacy, ctx)

/-- `_readEth` (parser_impl_evm.c lines 175-207): reads the type tag, then
one outer RLP item which must be a list that ends exactly at the end of the
buffer, then dispatches to the per-type parser over the nested context. -/
def _readEth (buffer : List Nat) : Except ParserError eth_tx_t :=
  match readTxnType buffer ⟨0, buffer.length, 0⟩ with
  | .error e => .error e
  | .ok (tx_type, ctx1) =>
  match rlp_read buffer ctx1 with
  | .error e => .error e
  | .ok (list, ctx2) =>
  if list.kind ≠ RlpKind.list then .error .parser_unexpected_value
  else if ctx2.offset ≠ ctx2.bufferLen then .error .parser_unexpected_characters
  else
    let txCtx : parser_context_t := ⟨list.ptr, list.rlpLen, 0⟩
    match tx_type with
    | .eip1559 => parse_1559 buffer txCtx .eip1559
    | .eip2930 => parse_2930 buffer txCtx .eip2930
    | .legacy => parse_legacy_tx buffer txCtx .legacy

/-- Modelled from the spec: the ERC-20 `transfer(address,uint256)`
recogniser `validateERC20` (`evm_erc20.c`, not among the provided sources),
following §4.4: `value` empty or all-zero, `to` exactly 20 bytes, `data`
exactly 68 bytes starting with the selector `0xa9059cbb`, and the 12 bytes
after the selector all zero.  (The optional token allow-list only affects
display, not recognition.) -/
def validateERC20 (src : List Nat) (tx : eth_tx_t) : Bool :=
  (tx.value.rlpLen == 0 || (view src tx.value.ptr tx.value.rlpLen).all (· == 0)) &&
  tx.«to».rlpLen == 20 &&
  tx.data.rlpLen == 68 &&
  (view src tx.data.ptr tx.data.rlpLen).take 4 == [0xa9, 0x05, 0x9c, 0xbb] &&
  ((view src tx.data.ptr tx.data.rlpLen).drop 4).take 12 == List.replicate 12 0

/-- `_validateTxEth` (parser_impl_evm.c lines 209-215): a non-ERC-20
transaction is rejected outside expert mode. -/
def _validateTxEth (src : List Nat) (tx : eth_tx_t) (app_mode_expert : Bool) :
    Except ParserError Unit :=
  if ¬ validateERC20 src tx ∧ ¬ app_mode_expert then .error .parser_unsupported_tx
  else .ok ()

/-- `_getNumItemsEth` (parser_impl_evm.c lines 425-441).  The C function
writes through a pointer and returns `parser_ok` apart from the `NULL`
check, so it is modelled as the returned count. -/
def _getNumItemsEth (src : List Nat) (tx : eth_tx_t) : Nat :=
  if validateERC20 src tx then
    if tx.tx_type = .legacy ∨ tx.tx_type = .eip2930 then 9 else 10
  else
    5 + (if tx.data.rlpLen ≠ 0 then 1 else 0) + (if tx.«to».rlpLen ≠ 0 then 1 else 0)

/-- `printERC20Transfer` (parser_impl_evm.c lines 236-324), modelled at the
level of the selected display item: the index-skip arithmetic is verbatim
(`displayIdx` is a `uint8_t`, hence the `% 256` on each increment), and
each switch case is represented by the key it writes.  The value-rendering
helpers (`printEVMAddress`, `printRLPNumber`, ...) are not among the
provided sources; modelled from the spec as succeeding renderers. -/
def printERC20Transfer (tx : eth_tx_t) (displayIdx : Nat) :
    Except ParserError String :=
  let d1 := if tx.tx_type = .eip1559 ∧ displayIdx ≥ 7 then (displayIdx + 1) % 256
            else displayIdx
  let d2 := if (tx.tx_type = .legacy ∨ tx.tx_type = .eip2930) ∧ d1 ≥ 4 then (d1 + 2) % 256
            else d1
  match d2 with
  | 0 => .ok "Receiver"
  | 1 => .ok "Contract"
  | 2 => .ok "Amount"
  | 3 => .ok "Nonce"
  | 4 => .ok "Max Priority Fee"
  | 5 => .ok "Max Fee"
  | 6 => .ok "Gas limit"
  | 7 => .ok "Gas price"
  | 8 => .ok "Value"
  | 9 => .ok "Data"
  | 10 => .ok "Eth-Hash"
  | _ => .error .parser_display_page_out_of_range

/-- `printGeneric` (parser_impl_evm.c lines 326-408), modelled at the level
of the selected display item, like `printERC20Transfer`.  The first skip
adds one when (`displayIdx ≥ 2` and `data` is empty) or `to` is empty; the
second skips the gas-price slot for EIP-1559; the third skips the two fee
slots for legacy and EIP-2930. -/
def printGeneric (tx : eth_tx_t) (displayIdx : Nat) : Except ParserError String :=
  let d1 := if (displayIdx ≥ 2 ∧ tx.data.rlpLen = 0) ∨ tx.«to».rlpLen = 0 then
              (displayIdx + 1) % 256
            else displayIdx
  let d2 := if tx.tx_type = .eip1559 ∧ d1 ≥ 6 then (d1 + 1) % 256 else d1
  let d3 := if (tx.tx_type = .legacy ∨ tx.tx_type = .eip2930) ∧ d2 ≥ 3 then (d2 + 2) % 256
            else d2
  match d3 with
  | 0 => .ok "To"
  | 1 => .ok "Value"
  | 2 => .ok "Data"
  | 3 => .ok "Max Priority Fee"
  | 4 => .ok "Max Fee"
  | 5 => .ok "Gas limit"
  | 6 => .ok "Gas price"
  | 7 => .ok "Nonce"
  | 8 => .ok "Eth-Hash"
  | _ => .error .parser_display_page_out_of_range

/-- `_getItemEth` (parser_impl_evm.c lines 410-420): ERC-20 transfers are
clear-signed, everything else only in expert mode. -/
def _getItemEth (tx : eth_tx_t) (app_mode_expert : Bool) (displayIdx : Nat) :
    Except ParserError String :=
  if tx.is_erc20_transfer then printERC20Transfer tx displayIdx
  else if app_mode_expert then printGeneric tx displayIdx
  else .error .parser_unsupported_tx

/-- `Except` success test. -/
def isOk {ε α : Type} : Except ε α → Bool
  | .ok _ => true
  | .error _ => false

/-- Modelled from the spec: the 32-bit saturating addition
`saturating_add_u32` (`zxmacros`, not among the provided sources). -/
def saturating_add_u32 (a b : Nat) : Nat :=
  if a + b > 4294967295 then 4294967295 else a + b

/-- The Ledger SDK parity flag `CX_ECCINFO_PARITY_ODD` (value 1). -/
def CX_ECCINFO_PARITY_ODD : Nat := 1

/-- `_computeV` (parser_impl_evm.c lines 443-477).  `parity` is
`(info & CX_ECCINFO_PARITY_ODD) == 1`.  Typed transactions get `v = parity`;
legacy without chain ID gets `27 + parity`; legacy with chain ID computes
`saturating_add_u32(35 + parity, (uint32_t)id * 2)` and truncates to 8 bits
(the C cast `(uint32_t)id` is `id % 2^32` and the `uint32_t` doubling wraps
modulo `2^32`). -/
def _computeV (src : List Nat) (tx_obj : eth_tx_t) (info : Nat) :
    Except ParserError Nat :=
  let parity : Nat := if info &&& CX_ECCINFO_PARITY_ODD = 1 then 1 else 0
  if tx_obj.tx_type = .eip2930 ∨ tx_obj.tx_type = .eip1559 then .ok parity
  else if tx_obj.chainId.rlpLen = 0 then .ok (27 + parity)
  else
    match be_bytes_to_u64 src tx_obj.chainId.ptr tx_obj.chainId.rlpLen with
    | .error e => .error e
    | .ok id =>
      let cv := 35 + parity
      let cv := saturating_add_u32 cv (((id % 4294967296) * 2) % 4294967296)
      .ok (cv % 256)

/-- The recovery byte exactly as the claim words it for legacy-with-chain:
the low 8 bits of the 32-bit saturating sum `35 + parity + 2 * chain_id`
(no modular wrap before the saturation). -/
def claimed_v_legacy_chain (chain_id parity : Nat) : Nat :=
  (if 35 + parity + 2 * chain_id > 4294967295 then 4294967295
   else 35 + parity + 2 * chain_id) % 256

/-- Error codes of the signing collaborator (`zxerr_t`). -/
inductive zxerr_t where
  | zxerr_ok
  | zxerr_unknown
  | zxerr_invalid_crypto_settings
  deriving DecidableEq, Repr

def ED25519_SIGNATURE_SIZE : Nat := 64
def SK_LEN_25519 : Nat := 64

/-- Abstract byte size of the `cx_ecfp_private_key_t` structure. -/
def CX_PRIVATEKEY_SIZE : Nat := 80

/-- Outcomes of the external cryptographic calls made by `crypto_sign`
(BIP32 derivation, private-key structure creation, Ed25519 signing), each
modelled from the spec as an oracle: a success flag plus, for the signer,
the bytes it writes. -/
structure sign_env_t where
  derive_ok : Bool
  init_ok : Bool
  sign_ok : Bool
  sig_out : List Nat
  deriving DecidableEq, Repr

/-- Final state of `crypto_sign`: the returned error, the signature buffer
contents, and the two private-key buffers (`none` when the early parameter
check returned before they were created). -/
structure sign_result_t where
  ret : zxerr_t
  signature : List Nat
  cx_privateKey : Option (List Nat)
  privateKeyData : Option (List Nat)
  deriving DecidableEq, Repr

/-- `crypto_sign` (crypto.c lines 29-58).  The signature buffer is a list
whose length plays the role of `signatureMaxlen`; the C `NULL`-pointer
checks are not modelled (lists are never null).  Every path past the
parameter check runs the `catch_cx_error` epilogue: both key buffers are
zeroed, and on a non-`zxerr_ok` error the signature buffer is zeroed too. -/
def crypto_sign (env : sign_env_t) (signature : List Nat) (messageLen : Nat) :
    sign_result_t :=
  if signature.length < ED25519_SIGNATURE_SIZE ∨ messageLen = 0 then
    ⟨.zxerr_invalid_crypto_settings, signature, none, none⟩
  else
    let error : zxerr_t :=
      if env.derive_ok ∧ env.init_ok ∧ env.sign_ok then .zxerr_ok else .zxerr_unknown
    let sigWritten := if env.derive_ok ∧ env.init_ok ∧ env.sign_ok then env.sig_out
                      else signature
    ⟨error,
     if error ≠ .zxerr_ok then List.replicate signature.length 0 else sigWritten,
     some (List.replicate CX_PRIVATEKEY_SIZE 0),
     some (List.replicate SK_LEN_25519 0)⟩

/-- The first display index at which `printGeneric` runs out of items, per
the skip arithmetic: the generic count reported by `_getNumItemsEth`, plus
one for EIP-1559 (its extra fee slot is displayed but not counted), plus
one when `to` and `data` are both empty (the single `displayIdx += 1` skip
cannot compact both omissions). -/
def genericBound (src : List Nat) (tx : eth_tx_t) : Nat :=
  _getNumItemsEth src tx + (if tx.tx_type = .eip1559 then 1 else 0) +
    (if tx.«to».rlpLen = 0 ∧ tx.data.rlpLen = 0 then 1 else 0)

/-- C1 scenario: the buffer `0x81 0x85`, a single RLP string item of payload
length 1 (payload byte `0x85` = 133). -/
def chainBufLen1 : List Nat := [0x81, 0x85]

/-- A canonical chain-ID item for PEAQ mainnet: string of payload `0x0D0A`
(3338). -/
def chainBuf3338 : List Nat := [0x82, 0x0D, 0x0A]

/-- A generic (non-ERC-20) EIP-1559 record with non-empty `to` (20 bytes)
and non-empty `data` (1 byte). -/
def c2tx : eth_tx_t :=
  { zeroTx with tx_type := .eip1559, «to» := ⟨.string, 0, 20⟩, data := ⟨.string, 0, 1⟩ }

/-- A generic legacy record with preserved empty `to` and empty `data`. -/
def c3tx : eth_tx_t := { zeroTx with tx_type := .legacy }

/-- A legacy pre-EIP-155 transaction whose `to` field is 5 bytes long:
outer list `0xCB`, then `nonce gasPrice gasLimit` empty, `to = 0x85` with
five payload bytes, `value` and `data` empty. -/
def c4buf : List Nat := [0xCB, 0x80, 0x80, 0x80, 0x85, 1, 2, 3, 4, 5, 0x80, 0x80]

/-- A legacy pre-EIP-155 transaction with an arbitrary `to` payload: outer
short list, empty `nonce`/`gasPrice`/`gasLimit`, then the `to` string, then
empty `value`/`data`.  Well-formed (short-form headers) whenever
`toBytes.length ≤ 49`. -/
def mkLegacyBuf (toBytes : List Nat) : List Nat :=
  [0xC0 + (toBytes.length + 6), 0x80, 0x80, 0x80, 0x80 + toBytes.length] ++
    (toBytes ++ [0x80, 0x80])

/-- C5 scenario: a chain-ID payload of 4 bytes decoding to `2^31`. -/
def c5src : List Nat := [0x80, 0, 0, 0]

/-- A legacy record whose chain-ID view covers all of `c5src`. -/
def c5tx : eth_tx_t := { zeroTx with tx_type := .legacy, chainId := ⟨.string, 0, 4⟩ }

/-- A 2-byte chain-ID payload decoding to 3338 (PEAQ mainnet). -/
def c6src : List Nat := [13, 10]

/-- A legacy record whose chain-ID view covers all of `c6src`. -/
def c6tx : eth_tx_t := { zeroTx with tx_type := .legacy, chainId := ⟨.string, 0, 2⟩ }

/-- C9 scenario: the nested payload of a legacy EIP-155 transaction: six
empty fields, the chain-ID item `0x82 0x0D 0x0A`, and empty `r`/`s`. -/
def c9buf : List Nat := [0x80, 0x80, 0x80, 0x80, 0x80, 0x80, 0x82, 0x0D, 0x0A, 0x80, 0x80]

/-- A generic legacy record with non-empty `to` and `data` (C2 witness). -/
def w2tx : eth_tx_t :=
  { zeroTx with tx_type := .legacy, «to» := ⟨.string, 0, 20⟩, data := ⟨.string, 0, 1⟩ }

/-- The display item selected by `printGeneric`, as a function of the only
observations of the record it depends on: the transaction type and the
emptiness of `data` and `to`. -/
def printGenericAbs (ty : eth_tx_type_e) (dataEmpty toEmpty : Bool)
    (displayIdx : Nat) : Except ParserError String :=
  let d1 := if (displayIdx ≥ 2 ∧ dataEmpty) ∨ toEmpty then (displayIdx + 1) % 256
            else displayIdx
  let d2 := if ty = .eip1559 ∧ d1 ≥ 6 then (d1 + 1) % 256 else d1
  let d3 := if (ty = .legacy ∨ ty = .eip2930) ∧ d2 ≥ 3 then (d2 + 2) % 256 else d2
  match d3 with
  | 0 => .ok "To"
  | 1 => .ok "Value"
  | 2 => .ok "Data"
  | 3 => .ok "Max Priority Fee"
  | 4 => .ok "Max Fee"
  | 5 => .ok "Gas limit"
  | 6 => .ok "Gas price"
  | 7 => .ok "Nonce"
  | 8 => .ok "Eth-Hash"
  | _ => .error .parser_display_page_out_of_range

/-- `genericBound` as a function of the same three observations. -/
def genericBoundAbs (ty : eth_tx_type_e) (dataEmpty toEmpty : Bool) : Nat :=
  5 + (if dataEmpty then 0 else 1) + (if toEmpty then 0 else 1) +
    (if ty = .eip1559 then 1 else 0) + (if toEmpty ∧ dataEmpty then 1 else 0)

theorem nat_lor_eq_zero (a b : Nat) : a ||| b = 0 ↔ a = 0 ∧ b = 0 := by
  constructor
  · intro h
    have ht : ∀ i, (a ||| b).testBit i = false := by simp [h]
    refine ⟨Nat.eq_of_testBit_eq fun i => ?_, Nat.eq_of_testBit_eq fun i => ?_⟩ <;>
      have := ht i <;> simp [Nat.testBit_lor] at this <;> simp [this]
  · rintro ⟨rfl, rfl⟩; rfl

theorem rlp_read_preserves (src : List Nat) (ctx : parser_context_t) (item : rlp_t)
    (ctx' : parser_context_t) (h : rlp_read src ctx = .ok (item, ctx')) :
    ctx'.base = ctx.base ∧ ctx'.bufferLen = ctx.bufferLen := by
  unfold rlp_read at h
  cases hr : rlp_read_at src ctx.base ctx.bufferLen ctx.offset with
  | error e => rw [hr] at h; exact absurd h (by simp)
  | ok p =>
    rw [hr] at h
    obtain ⟨it, off⟩ := p
    simp only [Except.ok.injEq, Prod.mk.injEq] at h
    obtain ⟨-, h2⟩ := h
    subst h2
    exact ⟨rfl, rfl⟩

theorem readTxnType_preserves (src : List Nat) (ctx : parser_context_t)
    (ty : eth_tx_type_e) (ctx' : parser_context_t)
    (h : readTxnType src ctx = .ok (ty, ctx')) :
    ctx'.base = ctx.base ∧ ctx'.bufferLen = ctx.bufferLen := by
  unfold readTxnType at h
  split at h
  · exact absurd h (by simp)
  · dsimp only at h
    split at h
    · simp only [Except.ok.injEq, Prod.mk.injEq] at h
      obtain ⟨-, h2⟩ := h
      subst h2
      exact ⟨rfl, rfl⟩
    · split at h
      · exact absurd h (by simp)
      · simp only [Except.ok.injEq, Prod.mk.injEq] at h
        obtain ⟨-, h2⟩ := h
        subst h2
        exact ⟨rfl, rfl⟩

theorem rlp_read_mk (src : List Nat) (ctx : parser_context_t) (item : rlp_t) (off2 : Nat)
    (h : rlp_read_at src ctx.base ctx.bufferLen ctx.offset = .ok (item, off2)) :
    rlp_read src ctx = .ok (item, { ctx with offset := off2 }) := by
  unfold rlp_read
  rw [h]

theorem rlp_read_at_short_string (src : List Nat) (base blen off len : Nat)
    (hoff : off < blen) (hB : src.getD (base + off) 0 = 0x80 + len) (hlen : len ≤ 55)
    (hbound : off + 1 + len ≤ blen) :
    rlp_read_at src base blen off = .ok (⟨.string, base + off + 1, len⟩, off + 1 + len) := by
  unfold rlp_read_at
  rw [if_neg (by omega)]
  dsimp only
  rw [hB]
  rw [if_neg (by omega), if_pos (by omega)]
  simp only [Nat.add_sub_cancel_left]
  rw [if_neg (by omega)]

theorem rlp_read_at_short_list (src : List Nat) (base blen off len : Nat)
    (hoff : off < blen) (hB : src.getD (base + off) 0 = 0xC0 + len) (hlen : len ≤ 55)
    (hbound : off + 1 + len ≤ blen) :
    rlp_read_at src base blen off = .ok (⟨.list, base + off + 1, len⟩, off + 1 + len) := by
  unfold rlp_read_at
  rw [if_neg (by omega)]
  dsimp only
  rw [hB]
  rw [if_neg (by omega), if_neg (by omega), if_neg (by omega), if_pos (by omega)]
  simp only [Nat.add_sub_cancel_left]
  rw [if_neg (by omega)]

theorem computeV_parity (info : Nat) :
    (if info &&& CX_ECCINFO_PARITY_ODD = 1 then 1 else 0) = info % 2 := by
  simp only [CX_ECCINFO_PARITY_ODD, Nat.and_one_is_mod]
  rcases Nat.mod_two_eq_zero_or_one info with h | h <;> simp [h]

theorem computeV_legacy_chain_eq (src : List Nat) (tx : eth_tx_t) (info : Nat)
    (hty : tx.tx_type = .legacy) (h0 : tx.chainId.rlpLen ≠ 0) (h8 : tx.chainId.rlpLen ≤ 8) :
    _computeV src tx info =
      .ok (saturating_add_u32 (35 + info % 2)
        ((beVal (view src tx.chainId.ptr tx.chainId.rlpLen) % 4294967296) * 2 % 4294967296) % 256) := by
  unfold _computeV
  rw [computeV_parity, hty]
  rw [if_neg (by simp), if_neg h0]
  unfold be_bytes_to_u64
  rw [if_neg (by omega)]
deriving instance DecidableEq for Except

/-- Claim C1 (counterexample to the claim as stated): the buffer `0x81 0x85`
is a single RLP string item of payload length 1 (within the claimed
accepted range 1..8) whose decoded value 133 is outside the allow-list, so
the claim requires `invalid_chain_id`; the code instead rejects every
length-1 string item with `unexpected_error`. -/
theorem readChainID_claim_cex :
    rlp_read chainBufLen1 ⟨0, 2, 0⟩ = .ok (⟨RlpKind.string, 1, 1⟩, ⟨0, 2, 2⟩) ∧
    readChainID chainBufLen1 ⟨0, 2, 0⟩ = .error .parser_unexpected_error ∧
    ParserError.parser_unexpected_error ≠ ParserError.parser_invalid_chain_id := by
  decide

/-- Claim C1 (amended): the chain-ID reader accepts (a) single-byte-kind
items, whose byte value is the chain ID, and (b) any item of payload length
2 to 8 bytes, decoded big-endian; it returns `invalid_chain_id` exactly
when the decoded value is not in {3338, 9990, 2241}, `unexpected_error`
when the payload length exceeds 8 bytes, and `unexpected_error` (not a
decode) for any item of payload length at most 1 that is not of single-byte
kind — in particular every length-1 string item is rejected. -/
theorem readChainID_cases (src : List Nat) (ctx : parser_context_t)
    (item : rlp_t) (ctx' : parser_context_t)
    (h : rlp_read src ctx = .ok (item, ctx')) :
    (item.kind = RlpKind.byte → item.rlpLen ≤ 1 →
      readChainID src ctx =
        if supported_networks_evm.contains (src.getD item.ptr 0) then .ok (item, ctx')
        else .error .parser_invalid_chain_id) ∧
    (2 ≤ item.rlpLen → item.rlpLen ≤ 8 →
      readChainID src ctx =
        if supported_networks_evm.contains (beVal (view src item.ptr item.rlpLen)) then
          .ok (item, ctx')
        else .error .parser_invalid_chain_id) ∧
    (8 < item.rlpLen → readChainID src ctx = .error .parser_unexpected_error) ∧
    (item.rlpLen ≤ 1 → item.kind ≠ RlpKind.byte →
      readChainID src ctx = .error .parser_unexpected_error) := by
  unfold readChainID
  rw [h]
  dsimp only
  refine ⟨?_, ?_, ?_, ?_⟩
  · intro hk h1
    rw [if_neg (by omega), if_pos hk]
  · intro h2 h8
    rw [if_pos (by omega)]
    unfold be_bytes_to_u64
    rw [if_neg (by omega)]
  · intro h8
    rw [if_pos (by omega)]
    unfold be_bytes_to_u64
    rw [if_pos (by omega)]
  · intro h1 hk
    rw [if_neg (by omega), if_neg hk]

/-- Witness for `readChainID_cases`: the canonical 2-byte mainnet chain-ID
item `0x82 0x0D 0x0A` is accepted. -/
theorem readChainID_cases_witness :
    readChainID chainBuf3338 ⟨0, 3, 0⟩ = .ok (⟨RlpKind.string, 1, 2⟩, ⟨0, 3, 3⟩) := by
  have h := (readChainID_cases chainBuf3338 ⟨0, 3, 0⟩ ⟨RlpKind.string, 1, 2⟩ ⟨0, 3, 3⟩
    (by decide)).2.1 (by decide) (by decide)
  rw [h]
  decide
/-- Claim C7: classification of the first byte by the type-tag reader:
`0x01` is EIP-2930 (tag consumed), `0x02` is EIP-1559 (tag consumed), any
byte at or above `0xC0` is legacy (nothing consumed), and every other first
byte makes the whole decode fail with `unsupported_tx`. -/
theorem readTxnType_cases (b : Nat) (rest : List Nat) :
    (b = 0x01 → readTxnType (b :: rest) ⟨0, (b :: rest).length, 0⟩ =
      .ok (.eip2930, ⟨0, (b :: rest).length, 1⟩)) ∧
    (b = 0x02 → readTxnType (b :: rest) ⟨0, (b :: rest).length, 0⟩ =
      .ok (.eip1559, ⟨0, (b :: rest).length, 1⟩)) ∧
    (0xC0 ≤ b → readTxnType (b :: rest) ⟨0, (b :: rest).length, 0⟩ =
      .ok (.legacy, ⟨0, (b :: rest).length, 0⟩)) ∧
    (b ≠ 0x01 → b ≠ 0x02 → b < 0xC0 →
      _readEth (b :: rest) = .error .parser_unsupported_tx) := by
  have hm : (b :: rest).getD (0 + 0) 0 = b := rfl
  refine ⟨?_, ?_, ?_, ?_⟩
  · rintro rfl
    unfold readTxnType
    rw [if_neg (by simp)]
    dsimp only
    rw [hm]
    simp
  · rintro rfl
    unfold readTxnType
    rw [if_neg (by simp)]
    dsimp only
    rw [hm]
    simp
  · intro hb
    unfold readTxnType
    rw [if_neg (by simp)]
    dsimp only
    rw [hm, if_neg (by omega), if_neg (by omega)]
  · intro h1 h2 hb
    have ht : readTxnType (b :: rest) ⟨0, (b :: rest).length, 0⟩ =
        .error .parser_unsupported_tx := by
      unfold readTxnType
      rw [if_neg (by simp)]
      dsimp only
      rw [hm, if_neg (by omega), if_pos (by omega)]
    unfold _readEth
    rw [ht]

/-- Witness for `readTxnType_cases`: first byte `0x05` is below `0xC0` and
is not a known tag, so decode fails with `unsupported_tx`. -/
theorem readTxnType_cases_witness :
    _readEth [0x05, 0xC0] = .error .parser_unsupported_tx :=
  (readTxnType_cases 0x05 [0xC0]).2.2.2 (by decide) (by decide) (by decide)
/-- Claim C8: after the optional tag byte, decode requires exactly one
outer RLP item of list kind ending exactly at the last byte of the buffer:
a non-list outer item fails with `unexpected_value`; a list item followed
by further bytes fails with `unexpected_characters`; and any successful
decode had a list item ending exactly at the end of the input. -/
theorem readEth_outer_structure (buffer : List Nat) (ty : eth_tx_type_e)
    (ctx1 : parser_context_t) (item : rlp_t) (ctx2 : parser_context_t)
    (ht : readTxnType buffer ⟨0, buffer.length, 0⟩ = .ok (ty, ctx1))
    (hr : rlp_read buffer ctx1 = .ok (item, ctx2)) :
    (item.kind ≠ RlpKind.list → _readEth buffer = .error .parser_unexpected_value) ∧
    (item.kind = RlpKind.list → ctx2.offset ≠ buffer.length →
      _readEth buffer = .error .parser_unexpected_characters) ∧
    (∀ tx : eth_tx_t, _readEth buffer = .ok tx →
      item.kind = RlpKind.list ∧ ctx2.offset = buffer.length) := by
  have hlen : ctx2.bufferLen = buffer.length := by
    rw [(rlp_read_preserves _ _ _ _ hr).2, (readTxnType_preserves _ _ _ _ ht).2]
  unfold _readEth
  rw [ht]
  dsimp only
  rw [hr]
  dsimp only
  refine ⟨?_, ?_, ?_⟩
  · intro hk
    rw [if_pos hk]
  · intro hk hoff
    rw [if_neg (by simp [hk]), if_pos (by rw [hlen]; exact hoff)]
  · intro tx htx
    by_cases hk : item.kind = RlpKind.list
    · by_cases hoff : ctx2.offset = ctx2.bufferLen
      · exact ⟨hk, by rw [← hlen]; exact hoff⟩
      · rw [if_neg (by simp [hk]), if_pos hoff] at htx
        exact absurd htx (by simp)
    · rw [if_pos hk] at htx
      exact absurd htx (by simp)

/-- Witness for `readEth_outer_structure`: `0xC0 0x05` is an empty outer
list followed by one trailing byte, so decode fails with
`unexpected_characters`. -/
theorem readEth_outer_structure_witness :
    _readEth [0xC0, 0x05] = .error .parser_unexpected_characters :=
  (readEth_outer_structure [0xC0, 0x05] .legacy ⟨0, 2, 0⟩ ⟨RlpKind.list, 1, 0⟩ ⟨0, 2, 1⟩
    (by decide) (by decide)).2.1 (by decide) (by decide)
/-- Claim C9: structure of the legacy parse: after the six field reads, an
exhausted nested context succeeds as pre-EIP-155 with a zero-length
`chainId`; otherwise the chain ID is read and validated, two further items
`r` and `s` are read, and the parse succeeds exactly when both are
zero-length or both are single bytes equal to 0, failing with
`invalid_rs_values` for any other `r`/`s` content. -/
theorem parse_legacy_structure (src : List Nat) (ctx0 : parser_context_t)
    (ty : eth_tx_type_e) (i1 i2 i3 i4 i5 i6 : rlp_t)
    (c1 c2 c3 c4 c5 c6 : parser_context_t)
    (h1 : rlp_read src ctx0 = .ok (i1, c1)) (h2 : rlp_read src c1 = .ok (i2, c2))
    (h3 : rlp_read src c2 = .ok (i3, c3)) (h4 : rlp_read src c3 = .ok (i4, c4))
    (h5 : rlp_read src c4 = .ok (i5, c5)) (h6 : rlp_read src c5 = .ok (i6, c6)) :
    (c6.offset = c6.bufferLen →
      parse_legacy_tx src ctx0 ty = .ok { zeroTx with
        tx_type := ty, chainId := ⟨RlpKind.byte, 0, 0⟩, nonce := i1, gasPrice := i2,
        gasLimit := i3, «to» := i4, value := i5, data := i6 }) ∧
    (c6.offset ≠ c6.bufferLen →
      ∀ (cid : rlp_t) (c7 : parser_context_t) (r : rlp_t) (c8 : parser_context_t)
        (s : rlp_t) (c9 : parser_context_t),
        readChainID src c6 = .ok (cid, c7) →
        rlp_read src c7 = .ok (r, c8) →
        rlp_read src c8 = .ok (s, c9) →
        (((r.rlpLen = 0 ∧ s.rlpLen = 0) ∨
            (r.rlpLen = 1 ∧ s.rlpLen = 1 ∧ src.getD r.ptr 0 = 0 ∧ src.getD s.ptr 0 = 0)) →
          parse_legacy_tx src ctx0 ty = .ok { zeroTx with
            tx_type := ty, chainId := cid, nonce := i1, gasPrice := i2,
            gasLimit := i3, «to» := i4, value := i5, data := i6 }) ∧
        (¬ ((r.rlpLen = 0 ∧ s.rlpLen = 0) ∨
            (r.rlpLen = 1 ∧ s.rlpLen = 1 ∧ src.getD r.ptr 0 = 0 ∧ src.getD s.ptr 0 = 0)) →
          parse_legacy_tx src ctx0 ty = .error .parser_invalid_rs_values)) := by
  unfold parse_legacy_tx
  rw [h1]; dsimp only
  rw [h2]; dsimp only
  rw [h3]; dsimp only
  rw [h4]; dsimp only
  rw [h5]; dsimp only
  rw [h6]; dsimp only
  constructor
  · intro hex
    rw [if_pos hex]
  · intro hne cid c7 r c8 s c9 hcid hr hs
    rw [if_neg hne, hcid]; dsimp only
    rw [hr]; dsimp only
    rw [hs]; dsimp only
    have hcond : ((r.rlpLen = 0 ∧ s.rlpLen = 0) ∨ (r.rlpLen = 1 ∧ s.rlpLen = 1 ∧
        (src.getD r.ptr 0) ||| (src.getD s.ptr 0) = 0)) ↔
        ((r.rlpLen = 0 ∧ s.rlpLen = 0) ∨ (r.rlpLen = 1 ∧ s.rlpLen = 1 ∧
        src.getD r.ptr 0 = 0 ∧ src.getD s.ptr 0 = 0)) := by
      rw [nat_lor_eq_zero]
    constructor
    · intro hok
      rw [if_pos (hcond.mpr hok)]
    · intro hbad
      rw [if_neg (fun hd => hbad (hcond.mp hd))]

/-- Witness for `parse_legacy_structure`: a legacy EIP-155 payload with six
empty fields, mainnet chain ID `0x0D0A`, and empty `r`/`s` parses
successfully. -/
theorem parse_legacy_structure_witness :
    parse_legacy_tx c9buf ⟨0, 11, 0⟩ .legacy = .ok { zeroTx with
      tx_type := .legacy, chainId := ⟨RlpKind.string, 7, 2⟩,
      nonce := ⟨RlpKind.string, 1, 0⟩, gasPrice := ⟨RlpKind.string, 2, 0⟩,
      gasLimit := ⟨RlpKind.string, 3, 0⟩, «to» := ⟨RlpKind.string, 4, 0⟩,
      value := ⟨RlpKind.string, 5, 0⟩, data := ⟨RlpKind.string, 6, 0⟩ } :=
  ((parse_legacy_structure c9buf ⟨0, 11, 0⟩ .legacy
      ⟨RlpKind.string, 1, 0⟩ ⟨RlpKind.string, 2, 0⟩ ⟨RlpKind.string, 3, 0⟩
      ⟨RlpKind.string, 4, 0⟩ ⟨RlpKind.string, 5, 0⟩ ⟨RlpKind.string, 6, 0⟩
      ⟨0, 11, 1⟩ ⟨0, 11, 2⟩ ⟨0, 11, 3⟩ ⟨0, 11, 4⟩ ⟨0, 11, 5⟩ ⟨0, 11, 6⟩
      (by decide) (by decide) (by decide) (by decide) (by decide) (by decide)).2
    (by decide) ⟨RlpKind.string, 7, 2⟩ ⟨0, 11, 9⟩ ⟨RlpKind.string, 10, 0⟩ ⟨0, 11, 10⟩
    ⟨RlpKind.string, 11, 0⟩ ⟨0, 11, 11⟩ (by decide) (by decide) (by decide)).1
    (by decide)
/-- Claim C5 (counterexample to the claim as stated): for the 4-byte
chain-ID payload `0x80000000` (value `2^31`, within the claimed range of
1-to-8-byte payloads) and parity 0, the claimed saturating formula gives
`0xFF`, but the code first truncates the chain ID to 32 bits and doubles it
with modular wrap (`(uint32_t)id * 2`), obtaining `0` and hence `v = 35`. -/
theorem computeV_wrap_cex :
    beVal (view c5src c5tx.chainId.ptr c5tx.chainId.rlpLen) = 2147483648 ∧
    _computeV c5src c5tx 0 = .ok 35 ∧
    claimed_v_legacy_chain 2147483648 0 = 255 ∧ (35 : Nat) ≠ 255 := by
  decide

/-- Claim C5 (amended): typed transactions get `v = parity`; legacy without
chain ID gets `27 + parity`; legacy with a 1-to-8-byte chain-ID payload
decoding to a value below `2^31` gets the low 8 bits of the 32-bit
saturating sum `35 + parity + 2 * chain_id`; for larger values the code
truncates the chain ID to 32 bits and doubles it modulo `2^32` (wrapping)
before the saturating addition. -/
theorem computeV_cases (src : List Nat) (tx : eth_tx_t) (info : Nat) :
    (tx.tx_type = .eip2930 ∨ tx.tx_type = .eip1559 →
      _computeV src tx info = .ok (info % 2)) ∧
    (tx.tx_type = .legacy → tx.chainId.rlpLen = 0 →
      _computeV src tx info = .ok (27 + info % 2)) ∧
    (tx.tx_type = .legacy → 1 ≤ tx.chainId.rlpLen → tx.chainId.rlpLen ≤ 8 →
      beVal (view src tx.chainId.ptr tx.chainId.rlpLen) < 2147483648 →
      _computeV src tx info =
        .ok (claimed_v_legacy_chain
          (beVal (view src tx.chainId.ptr tx.chainId.rlpLen)) (info % 2))) := by
  refine ⟨?_, ?_, ?_⟩
  · intro hty
    unfold _computeV
    rw [computeV_parity, if_pos hty]
  · intro hty h0
    unfold _computeV
    rw [computeV_parity, hty, if_neg (by simp), if_pos h0]
  · intro hty h1 h8 hlt
    rw [computeV_legacy_chain_eq src tx info hty (by omega) h8]
    have hm1 : beVal (view src tx.chainId.ptr tx.chainId.rlpLen) % 4294967296 =
        beVal (view src tx.chainId.ptr tx.chainId.rlpLen) := Nat.mod_eq_of_lt (by omega)
    rw [hm1]
    have hm2 : beVal (view src tx.chainId.ptr tx.chainId.rlpLen) * 2 % 4294967296 =
        beVal (view src tx.chainId.ptr tx.chainId.rlpLen) * 2 := Nat.mod_eq_of_lt (by omega)
    rw [hm2]
    unfold saturating_add_u32 claimed_v_legacy_chain
    rw [Nat.mul_comm]

/-- Witness for `computeV_cases`: mainnet chain ID 3338 with parity hint 0
gives `v = (35 + 0 + 6676) mod 256 = 55`. -/
theorem computeV_cases_witness : _computeV c6src c6tx 0 = .ok 55 := by
  have h := (computeV_cases c6src c6tx 0).2.2 (by decide) (by decide) (by decide) (by decide)
  rw [h]
  decide
/-- Claim C6: for a legacy record whose chain-ID view satisfies the
parse-time invariant (payload of 1 to 8 bytes decoding to a value in the
allow-list {3338, 9990, 2241}) and parity `p` in {0, 1}, the recovery
bytes for the two parities differ by exactly one, and are at least 35. -/
theorem computeV_parity_relation (src : List Nat) (tx : eth_tx_t) (p : Nat)
    (hty : tx.tx_type = .legacy)
    (h1 : 1 ≤ tx.chainId.rlpLen) (h8 : tx.chainId.rlpLen ≤ 8)
    (hc : beVal (view src tx.chainId.ptr tx.chainId.rlpLen) ∈ supported_networks_evm)
    (hp : p ≤ 1) :
    ∃ vp vq : Nat, _computeV src tx p = .ok vp ∧ _computeV src tx (1 - p) = .ok vq ∧
      35 ≤ vp ∧ ((vp : ℤ) - (vq : ℤ) = 1 ∨ (vp : ℤ) - (vq : ℤ) = -1) := by
  have e1 := computeV_legacy_chain_eq src tx p hty (by omega) h8
  have e2 := computeV_legacy_chain_eq src tx (1 - p) hty (by omega) h8
  simp only [supported_networks_evm, List.mem_cons, List.not_mem_nil, or_false] at hc
  interval_cases p <;>
    rcases hc with hc | hc | hc <;>
    rw [hc] at e1 e2 <;>
    norm_num [saturating_add_u32] at e1 e2 <;>
    exact ⟨_, _, e1, e2, by norm_num, by norm_num⟩

/-- Witness for `computeV_parity_relation`: mainnet chain ID 3338, parity 0:
the two recovery bytes are 55 and 56. -/
theorem computeV_parity_relation_witness :
    ∃ vp vq : Nat, _computeV c6src c6tx 0 = .ok vp ∧ _computeV c6src c6tx 1 = .ok vq ∧
      35 ≤ vp ∧ ((vp : ℤ) - (vq : ℤ) = 1 ∨ (vp : ℤ) - (vq : ℤ) = -1) :=
  computeV_parity_relation c6src c6tx 0 (by decide) (by decide) (by decide) (by decide)
    (by decide)
theorem printGeneric_eq_abs (tx : eth_tx_t) (d : Nat) :
    printGeneric tx d =
      printGenericAbs tx.tx_type (tx.data.rlpLen == 0) (tx.«to».rlpLen == 0) d := by
  by_cases hD : tx.data.rlpLen = 0 <;> by_cases hT : tx.«to».rlpLen = 0 <;>
    simp [printGeneric, printGenericAbs, hD, hT]

theorem genericBound_eq_abs (src : List Nat) (tx : eth_tx_t)
    (hv : validateERC20 src tx = false) :
    genericBound src tx =
      genericBoundAbs tx.tx_type (tx.data.rlpLen == 0) (tx.«to».rlpLen == 0) := by
  by_cases hD : tx.data.rlpLen = 0 <;> by_cases hT : tx.«to».rlpLen = 0 <;>
    simp [genericBound, genericBoundAbs, _getNumItemsEth, hv, hD, hT]

theorem printGenericAbs_ok_below_bound :
    ∀ (ty : eth_tx_type_e) (b1 b2 : Bool),
      (∀ d, d < genericBoundAbs ty b1 b2 → isOk (printGenericAbs ty b1 b2 d) = true) ∧
      printGenericAbs ty b1 b2 (genericBoundAbs ty b1 b2) =
        .error .parser_display_page_out_of_range := by
  intro ty b1 b2
  cases ty <;> cases b1 <;> cases b2 <;> exact ⟨by decide, by decide⟩

/-- Claim C2 (counterexample to the claim as stated): for a generic
(non-ERC-20, expert-mode) EIP-1559 record with non-empty `to` and `data`,
`num_items` reports `5 + 1 + 1 = 7`, yet display index 7 still succeeds
(with the `Eth-Hash` item) instead of returning
`display_page_out_of_range`: the generic count omits the extra EIP-1559
fee slot. -/
theorem numItems_eip1559_cex :
    _getNumItemsEth [] c2tx = 7 ∧
    _getItemEth c2tx true 7 = .ok "Eth-Hash" ∧
    _getItemEth c2tx true 8 = .error .parser_display_page_out_of_range := by
  decide

/-- Claim C2 (amended): for every non-ERC-20 record displayed in expert
mode, `get_item` succeeds at every display index strictly below
`genericBound` and returns `display_page_out_of_range` at `genericBound`,
where `genericBound` is `num_items`, plus one for EIP-1559 (its extra fee
slot is displayed but not counted), plus one when `to` and `data` are both
empty (a single skip cannot compact both omissions).  `genericBound` equals
`num_items` exactly for legacy and EIP-2930 records whose `to` and `data`
are not both empty. -/
theorem getItem_generic_bound (src : List Nat) (tx : eth_tx_t)
    (herc : tx.is_erc20_transfer = false) (hv : validateERC20 src tx = false) :
    (∀ d, d < genericBound src tx → isOk (_getItemEth tx true d) = true) ∧
    _getItemEth tx true (genericBound src tx) =
      .error .parser_display_page_out_of_range := by
  have hg : ∀ d, _getItemEth tx true d =
      printGenericAbs tx.tx_type (tx.data.rlpLen == 0) (tx.«to».rlpLen == 0) d := by
    intro d
    rw [_getItemEth, if_neg (by simp [herc]), if_pos rfl]
    exact printGeneric_eq_abs tx d
  have hb := genericBound_eq_abs src tx hv
  have habs := printGenericAbs_ok_below_bound tx.tx_type
    (tx.data.rlpLen == 0) (tx.«to».rlpLen == 0)
  constructor
  · intro d hd
    rw [hg d]
    exact habs.1 d (by rw [← hb]; exact hd)
  · rw [hg, hb]
    exact habs.2

/-- Witness for `getItem_generic_bound`: a generic legacy record with
non-empty `to` and `data` has bound 7, and index 0 shows an item. -/
theorem getItem_generic_bound_witness :
    isOk (_getItemEth w2tx true 0) = true ∧
    _getItemEth w2tx true (genericBound [] w2tx) =
      .error .parser_display_page_out_of_range :=
  ⟨(getItem_generic_bound [] w2tx rfl (by decide)).1 0 (by decide),
   (getItem_generic_bound [] w2tx rfl (by decide)).2⟩

theorem printGenericAbs_omission :
    ∀ (ty : eth_tx_type_e) (b1 b2 : Bool),
      (b2 = true → ∀ d, d < genericBoundAbs ty b1 b2 →
        printGenericAbs ty b1 b2 d ≠ .ok "To") ∧
      (b1 = true → b2 = false → ∀ d, d < genericBoundAbs ty b1 b2 →
        printGenericAbs ty b1 b2 d ≠ .ok "Data") ∧
      (b1 = true → b2 = true → printGenericAbs ty b1 b2 1 = .ok "Data") := by
  intro ty b1 b2
  cases ty <;> cases b1 <;> cases b2 <;>
    exact ⟨by decide, by decide, by decide⟩

/-- Claim C3 (counterexample to the claim as stated): for a generic legacy
record whose `to` and `data` are both empty, `num_items` is 5, and display
index 1 (inside the displayed range) yields the key `Data` even though
`data` is empty: the single skip increment cannot compact both omissions. -/
theorem printGeneric_bothEmpty_data_cex :
    _getNumItemsEth [] c3tx = 5 ∧ (1 : Nat) < 5 ∧
    _getItemEth c3tx true 1 = .ok "Data" := by
  decide

/-- Claim C3 (amended): in the generic expert-mode display, `To` is omitted
whenever `to` is empty, and `Data` is omitted whenever `data` is empty and
`to` is non-empty; but when `to` and `data` are both empty, the sequence
still shows `Data` (at display index 1), because the single
`displayIdx += 1` skip cannot compact both omissions. -/
theorem generic_omission (src : List Nat) (tx : eth_tx_t)
    (herc : tx.is_erc20_transfer = false) (hv : validateERC20 src tx = false) :
    (tx.«to».rlpLen = 0 → ∀ d, d < genericBound src tx →
      _getItemEth tx true d ≠ .ok "To") ∧
    (tx.data.rlpLen = 0 → tx.«to».rlpLen ≠ 0 → ∀ d, d < genericBound src tx →
      _getItemEth tx true d ≠ .ok "Data") ∧
    (tx.«to».rlpLen = 0 → tx.data.rlpLen = 0 → _getItemEth tx true 1 = .ok "Data") := by
  have hg : ∀ d, _getItemEth tx true d =
      printGenericAbs tx.tx_type (tx.data.rlpLen == 0) (tx.«to».rlpLen == 0) d := by
    intro d
    rw [_getItemEth, if_neg (by simp [herc]), if_pos rfl]
    exact printGeneric_eq_abs tx d
  have hb := genericBound_eq_abs src tx hv
  refine ⟨?_, ?_, ?_⟩
  · intro hT d hd
    rw [hg d]
    rw [hb] at hd
    exact (printGenericAbs_omission tx.tx_type _ _).1 (by simp [hT]) d hd
  · intro hD hT d hd
    rw [hg d]
    rw [hb] at hd
    exact (printGenericAbs_omission tx.tx_type _ _).2.1 (by simp [hD]) (by simp [hT]) d hd
  · intro hT hD
    rw [hg 1]
    exact (printGenericAbs_omission tx.tx_type _ _).2.2 (by simp [hD]) (by simp [hT])

/-- Witness for `generic_omission`: the empty-`to` legacy record never
shows the key `To` at display index 0. -/
theorem generic_omission_witness : _getItemEth c3tx true 0 ≠ .ok "To" :=
  (generic_omission [] c3tx rfl (by decide)).1 rfl 0 (by decide)
/-- Claim C10 (counterexample to the claim as stated): a call with a 3-byte
signature buffer (below the 64-byte minimum) takes the parameter-check
failure path and returns `zxerr_invalid_crypto_settings` without zeroing
the signature buffer, contradicting "on every failing exit path the entire
signature output buffer is zeroed". -/
theorem crypto_sign_early_cex :
    (crypto_sign ⟨true, true, true, List.replicate 64 1⟩ [7, 7, 7] 5).ret ≠ .zxerr_ok ∧
    (crypto_sign ⟨true, true, true, List.replicate 64 1⟩ [7, 7, 7] 5).signature = [7, 7, 7] ∧
    [7, 7, 7] ≠ List.replicate 3 (0 : Nat) := by
  decide

/-- Claim C10 (amended): whenever the private-key material exists (that is,
on every path past the parameter check), both the raw key bytes and the
private-key structure are zeroed on exit, successful or failing, and on
every failing exit past the parameter check the whole signature buffer is
zeroed; the parameter-check failure path, however, returns
`zxerr_invalid_crypto_settings` with the signature buffer untouched and no
key material created. -/
theorem crypto_sign_zeroization (env : sign_env_t) (signature : List Nat)
    (messageLen : Nat) :
    (∀ k, (crypto_sign env signature messageLen).cx_privateKey = some k →
      k = List.replicate CX_PRIVATEKEY_SIZE 0) ∧
    (∀ k, (crypto_sign env signature messageLen).privateKeyData = some k →
      k = List.replicate SK_LEN_25519 0) ∧
    (¬ (signature.length < ED25519_SIGNATURE_SIZE ∨ messageLen = 0) →
      (crypto_sign env signature messageLen).ret ≠ .zxerr_ok →
      (crypto_sign env signature messageLen).signature =
        List.replicate signature.length 0) ∧
    ((signature.length < ED25519_SIGNATURE_SIZE ∨ messageLen = 0) →
      crypto_sign env signature messageLen =
        ⟨.zxerr_invalid_crypto_settings, signature, none, none⟩) := by
  unfold crypto_sign
  by_cases hp : signature.length < ED25519_SIGNATURE_SIZE ∨ messageLen = 0
  · rw [if_pos hp]
    exact ⟨fun k hk => by simp at hk, fun k hk => by simp at hk,
      fun hnp => absurd hp hnp, fun _ => rfl⟩
  · rw [if_neg hp]
    dsimp only
    by_cases hok : env.derive_ok ∧ env.init_ok ∧ env.sign_ok
    · simp only [if_pos hok]
      refine ⟨fun k hk => ?_, fun k hk => ?_, fun hnp hret => ?_, fun hp2 => absurd hp2 hp⟩
      · simp only [Option.some.injEq] at hk
        exact hk.symm
      · simp only [Option.some.injEq] at hk
        exact hk.symm
      · exact absurd rfl hret
    · simp only [if_neg hok]
      refine ⟨fun k hk => ?_, fun k hk => ?_, fun hnp hret => ?_, fun hp2 => absurd hp2 hp⟩
      · simp only [Option.some.injEq] at hk
        exact hk.symm
      · simp only [Option.some.injEq] at hk
        exact hk.symm
      · rw [if_pos (by decide)]

/-- Witness for `crypto_sign_zeroization`: a failed key derivation with a
valid 64-byte buffer zeroes the signature buffer and both key buffers. -/
theorem crypto_sign_zeroization_witness :
    (crypto_sign ⟨false, true, true, List.replicate 64 1⟩ (List.replicate 64 7) 5).signature =
      List.replicate 64 0 ∧
    (crypto_sign ⟨false, true, true, List.replicate 64 1⟩ (List.replicate 64 7) 5).cx_privateKey =
      some (List.replicate CX_PRIVATEKEY_SIZE 0) :=
  ⟨by
    have h := (crypto_sign_zeroization ⟨false, true, true, List.replicate 64 1⟩
      (List.replicate 64 7) 5).2.2.1 (by decide) (by decide)
    simpa using h,
   by decide⟩
theorem rlp_read_short_string_ctx (src : List Nat) (base blen off len ptr off2 : Nat)
    (hoff : off < blen) (hB : src.getD (base + off) 0 = 0x80 + len) (hlen : len ≤ 55)
    (hbound : off + 1 + len ≤ blen) (hptr : ptr = base + off + 1)
    (hoff2 : off2 = off + 1 + len) :
    rlp_read src ⟨base, blen, off⟩ = .ok (⟨.string, ptr, len⟩, ⟨base, blen, off2⟩) := by
  subst hptr hoff2
  exact rlp_read_mk src ⟨base, blen, off⟩ _ _
    (rlp_read_at_short_string src base blen off len hoff hB hlen hbound)

theorem rlp_read_short_list_ctx (src : List Nat) (base blen off len ptr off2 : Nat)
    (hoff : off < blen) (hB : src.getD (base + off) 0 = 0xC0 + len) (hlen : len ≤ 55)
    (hbound : off + 1 + len ≤ blen) (hptr : ptr = base + off + 1)
    (hoff2 : off2 = off + 1 + len) :
    rlp_read src ⟨base, blen, off⟩ = .ok (⟨.list, ptr, len⟩, ⟨base, blen, off2⟩) := by
  subst hptr hoff2
  exact rlp_read_mk src ⟨base, blen, off⟩ _ _
    (rlp_read_at_short_list src base blen off len hoff hB hlen hbound)

/-- Claim C4 (counterexample to the claim as stated): the input `c4buf` has
a `to` field of 5 bytes, yet decode succeeds: no check of the `to` length
is performed at the end of the parse (or anywhere else). -/
theorem to_length_unchecked_cex :
    (_readEth c4buf).map (fun tx => tx.«to».rlpLen) = .ok 5 ∧
    (5 : Nat) ≠ 0 ∧ (5 : Nat) ≠ 20 := by
  decide

/-- Claim C4 (amended): the decoder does not enforce any length constraint
on `to`: for every payload of up to 49 bytes (the short-form encoding
limit of this transaction shape), the legacy transaction built around it
decodes successfully and stores `to` with exactly that payload length,
whether or not it is 0 or 20. -/
theorem to_length_unchecked (toBytes : List Nat) (hn : toBytes.length ≤ 49) :
    (_readEth (mkLegacyBuf toBytes)).map (fun tx => tx.«to».rlpLen) =
      .ok toBytes.length := by
  have hbufeq : mkLegacyBuf toBytes =
      (192 + (toBytes.length + 6)) :: 128 :: 128 :: 128 ::
        (128 + toBytes.length) :: (toBytes ++ [128, 128]) := by
    simp [mkLegacyBuf]
  set n := toBytes.length with hn_def
  set buf := mkLegacyBuf toBytes with hbuf_def
  have hlen : buf.length = n + 7 := by
    rw [hbufeq]
    simp
  have hg0 : buf.getD (0 + 0) 0 = 192 + (n + 6) := by
    rw [hbufeq]
    simp
  have hg1 : buf.getD (1 + 0) 0 = 128 := by
    rw [hbufeq]
    simp
  have hg2 : buf.getD (1 + 1) 0 = 128 := by
    rw [hbufeq]
    simp
  have hg3 : buf.getD (1 + 2) 0 = 128 := by
    rw [hbufeq]
    simp
  have hg4 : buf.getD (1 + 3) 0 = 128 + n := by
    rw [hbufeq]
    simp
  have htail : ∀ k, k = n ∨ k = n + 1 → (toBytes ++ [128, 128]).getD k 0 = 128 := by
    intro k hk
    rw [List.getD_append_right _ _ _ _ (by omega)]
    rcases hk with rfl | rfl
    · rw [← hn_def, Nat.sub_self]
      simp
    · rw [show n + 1 - toBytes.length = 1 by omega]
      simp
  have hg5 : buf.getD (1 + (4 + n)) 0 = 128 := by
    rw [hbufeq, show 1 + (4 + n) = (((((n + 0) + 1) + 1) + 1) + 1) + 1 by omega]
    rw [List.getD_cons_succ, List.getD_cons_succ, List.getD_cons_succ,
      List.getD_cons_succ, List.getD_cons_succ]
    exact htail (n + 0) (by omega)
  have hg6 : buf.getD (1 + (5 + n)) 0 = 128 := by
    rw [hbufeq, show 1 + (5 + n) = ((((((n + 1) + 1) + 1) + 1) + 1) + 1) by omega]
    rw [List.getD_cons_succ, List.getD_cons_succ, List.getD_cons_succ,
      List.getD_cons_succ, List.getD_cons_succ]
    exact htail (n + 1) (by omega)
  have hA : readTxnType buf ⟨0, buf.length, 0⟩ = .ok (.legacy, ⟨0, buf.length, 0⟩) := by
    unfold readTxnType
    rw [if_neg (by simp [hlen])]
    dsimp only
    rw [hg0, if_neg (by omega), if_neg (by omega)]
  have hB : rlp_read buf ⟨0, buf.length, 0⟩ =
      .ok (⟨.list, 1, n + 6⟩, ⟨0, buf.length, n + 7⟩) :=
    rlp_read_short_list_ctx buf 0 buf.length 0 (n + 6) 1 (n + 7)
      (by omega) hg0 (by omega) (by omega) (by omega) (by omega)
  have hr1 : rlp_read buf ⟨1, n + 6, 0⟩ = .ok (⟨.string, 2, 0⟩, ⟨1, n + 6, 1⟩) :=
    rlp_read_short_string_ctx buf 1 (n + 6) 0 0 2 1
      (by omega) hg1 (by omega) (by omega) (by omega) (by omega)
  have hr2 : rlp_read buf ⟨1, n + 6, 1⟩ = .ok (⟨.string, 3, 0⟩, ⟨1, n + 6, 2⟩) :=
    rlp_read_short_string_ctx buf 1 (n + 6) 1 0 3 2
      (by omega) hg2 (by omega) (by omega) (by omega) (by omega)
  have hr3 : rlp_read buf ⟨1, n + 6, 2⟩ = .ok (⟨.string, 4, 0⟩, ⟨1, n + 6, 3⟩) :=
    rlp_read_short_string_ctx buf 1 (n + 6) 2 0 4 3
      (by omega) hg3 (by omega) (by omega) (by omega) (by omega)
  have hr4 : rlp_read buf ⟨1, n + 6, 3⟩ = .ok (⟨.string, 5, n⟩, ⟨1, n + 6, 4 + n⟩) :=
    rlp_read_short_string_ctx buf 1 (n + 6) 3 n 5 (4 + n)
      (by omega) hg4 (by omega) (by omega) (by omega) (by omega)
  have hr5 : rlp_read buf ⟨1, n + 6, 4 + n⟩ =
      .ok (⟨.string, 6 + n, 0⟩, ⟨1, n + 6, 5 + n⟩) :=
    rlp_read_short_string_ctx buf 1 (n + 6) (4 + n) 0 (6 + n) (5 + n)
      (by omega) hg5 (by omega) (by omega) (by omega) (by omega)
  have hr6 : rlp_read buf ⟨1, n + 6, 5 + n⟩ =
      .ok (⟨.string, 7 + n, 0⟩, ⟨1, n + 6, n + 6⟩) :=
    rlp_read_short_string_ctx buf 1 (n + 6) (5 + n) 0 (7 + n) (n + 6)
      (by omega) hg6 (by omega) (by omega) (by omega) (by omega)
  unfold _readEth
  rw [hA]
  dsimp only
  rw [hB]
  dsimp only
  rw [if_neg (by simp), if_neg (by simp [hlen])]
  try dsimp only
  unfold parse_legacy_tx
  rw [hr1]; try dsimp only
  rw [hr2]; try dsimp only
  rw [hr3]; try dsimp only
  rw [hr4]; try dsimp only
  rw [hr5]; try dsimp only
  rw [hr6]; try dsimp only
  rw [if_pos rfl]
  simp [Except.map]

/-- Witness for `to_length_unchecked`: a 3-byte `to` payload (neither 0 nor
20 bytes) decodes successfully with stored length 3. -/
theorem to_length_unchecked_witness :
    (_readEth (mkLegacyBuf [1, 2, 3])).map (fun tx => tx.«to».rlpLen) = .ok 3 :=
  to_length_unchecked [1, 2, 3] (by decide)
